import Mathlib

/-!
Verification development for the commerce core of a multi-vendor
marketplace backend.  The definitions below are a shallow embedding of
the TypeScript source: monetary values are rationals, Mongo documents
are Lean structures, collections are lists, and each controller action
becomes a pure function from an explicit database state to an HTTP
status code paired with the successor state.  Wall-clock timestamps are
embedded as presence markers of type Option Unit, and external gateway
calls are parameters of the embedded functions.
-/

namespace Dukaan

/-- JavaScript Math.round: round half toward positive infinity. -/
def jsRound (x : ℚ) : ℚ := ((⌊x + 1/2⌋ : ℤ) : ℚ)

/-- Embedding of the source pattern Math.min(x, maxDiscount || Infinity):
a maxDiscount of 0 (the schema default, also the value of an unset
field) is falsy in JavaScript, so it imposes no cap at all. -/
def capped (x maxDiscount : ℚ) : ℚ :=
  if maxDiscount = 0 then x else min x maxDiscount

/-- Replace the first element satisfying p, mirroring a mongoose save of
the single document returned by findOne/findById. -/
def updateFirst (p : α → Bool) (f : α → α) : List α → List α
  | [] => []
  | x :: xs => if p x then f x :: xs else x :: updateFirst p f xs

theorem updateFirst_of_find?_eq_none (p : α → Bool) (f : α → α)
    (l : List α) (h : l.find? p = none) : updateFirst p f l = l := by
  induction l with
  | nil => rfl
  | cons x xs ih =>
    cases hx : p x with
    | true => simp [List.find?, hx] at h
    | false =>
      simp only [List.find?, hx] at h
      simp [updateFirst, hx, ih h]

theorem find?_updateFirst (p : α → Bool) (f : α → α) (l : List α)
    (hp : ∀ x, p (f x) = p x) :
    (updateFirst p f l).find? p = (l.find? p).map f := by
  induction l with
  | nil => rfl
  | cons x xs ih =>
    cases hx : p x with
    | true => simp [updateFirst, List.find?, hx, hp x]
    | false => simp [updateFirst, List.find?, hx, ih]

theorem updateFirst_idem (p : α → Bool) (f : α → α) (l : List α)
    (hp : ∀ x, p (f x) = p x) (hf : ∀ x, f (f x) = f x) :
    updateFirst p f (updateFirst p f l) = updateFirst p f l := by
  induction l with
  | nil => rfl
  | cons x xs ih =>
    cases hx : p x with
    | true => simp [updateFirst, hx, hp x, hf x]
    | false => simp [updateFirst, hx, ih]

theorem find?_of_stronger_pred {β : Type} [DecidableEq β]
    (key : α → β) (q : α → Bool) (l : List α) (k : β) (x : α)
    (hnodup : (l.map key).Nodup)
    (h : l.find? (fun a => key a == k && q a) = some x) :
    l.find? (fun a => key a == k) = some x := by
  induction l with
  | nil => simp at h
  | cons y ys ih =>
    simp only [List.map_cons, List.nodup_cons] at hnodup
    cases hy : (key y == k) with
    | true =>
      cases hq : q y with
      | true =>
        simp only [List.find?, hy, hq, Bool.and_self] at h
        simp only [List.find?, hy]
        exact h
      | false =>
        simp only [List.find?, hy, hq, Bool.and_false] at h
        exfalso
        have hx : x ∈ ys := List.mem_of_find?_eq_some h
        have hkx := List.find?_some h
        have hkeq : key x = k := by
          simp only [Bool.and_eq_true, beq_iff_eq] at hkx
          exact hkx.1
        have hyk : key y = k := beq_iff_eq.mp hy
        exact hnodup.1 (hyk ▸ hkeq ▸ List.mem_map_of_mem key hx)
    | false =>
      simp only [List.find?, hy, Bool.false_and] at h
      simp only [List.find?, hy]
      exact ih hnodup.2 h

/-! ## Discount resolution (models/Cart.ts, models/Product.ts) -/

/-- Discount entity kind, the `type` field of an Offer or Coupon. -/
inductive DiscountKind
  | amount
  | percentage
deriving DecidableEq

/-- Product document: the fields read by the cart price computation. -/
structure Product where
  id : Nat
  price : ℚ
  sellingPrice : ℚ
  discountAmount : ℚ
  discountPercentage : ℚ
  isDeleted : Bool
deriving DecidableEq

/-- productSchema pre-save hook: derive discountAmount and
discountPercentage from price and sellingPrice. -/
def productPreSave (p : Product) : Product :=
  if p.sellingPrice < p.price then
    { p with
      discountAmount := p.price - p.sellingPrice,
      discountPercentage := jsRound ((p.price - p.sellingPrice) / p.price * 100) }
  else
    { p with discountAmount := 0, discountPercentage := 0 }

/-- Offer document (models/Offer). -/
structure Offer where
  id : Nat
  store : Nat
  discountAmt : ℚ
  discountPercentage : ℚ
  type : DiscountKind
  maxDiscount : ℚ
  isActive : Bool
  products : List Nat
  isDeleted : Bool
deriving DecidableEq

/-- Coupon document (models/Coupon). -/
structure Coupon where
  id : Nat
  store : Nat
  code : String
  discountAmt : ℚ
  discountPercentage : ℚ
  type : DiscountKind
  maxDiscount : ℚ
  isActive : Bool
  products : List Nat
  isDeleted : Bool
deriving DecidableEq

/-- Cart line item (cartItemSchema). -/
structure CartItem where
  product : Nat
  quantity : Nat
  effectivePrice : ℚ
  price : ℚ
  discountAmt : ℚ
  discountPercentage : ℚ
  couponDiscount : ℚ
  couponDiscountPercentage : ℚ
  offerDiscount : ℚ
  offerDiscountPercentage : ℚ
deriving DecidableEq

/-- Cart document: the fields used by calculateItemPrices. -/
structure Cart where
  user : Nat
  store : Nat
  items : List CartItem
  coupon : Option Nat
  offer : Option Nat
deriving DecidableEq

/-- findById on the Product collection; the pre-find middleware filters
out soft-deleted documents. -/
def Product.findById (products : List Product) (i : Nat) : Option Product :=
  products.find? (fun p => p.id == i && !p.isDeleted)

/-- findById on the Offer collection with the soft-delete filter. -/
def Offer.findById (offers : List Offer) (i : Nat) : Option Offer :=
  offers.find? (fun o => o.id == i && !o.isDeleted)

/-- findById on the Coupon collection with the soft-delete filter. -/
def Coupon.findById (coupons : List Coupon) (i : Nat) : Option Coupon :=
  coupons.find? (fun c => c.id == i && !c.isDeleted)

/-- Offer block of calculateItemPrices: acting on the pair of the item
record and the running effective price. -/
def applyOfferDiscount (offerDetails : Option Offer) (product : Product)
    (acc : CartItem × ℚ) : CartItem × ℚ :=
  match offerDetails with
  | none => acc
  | some od =>
    if od.isActive &&
        (od.products.contains product.id || od.products.isEmpty) then
      match od.type with
      | DiscountKind.percentage =>
        let offerDiscount :=
          capped (product.sellingPrice * od.discountPercentage / 100) od.maxDiscount
        ({ acc.1 with
            offerDiscount := offerDiscount,
            offerDiscountPercentage := od.discountPercentage },
          acc.2 - offerDiscount)
      | DiscountKind.amount =>
        ({ acc.1 with
            offerDiscount := od.discountAmt,
            offerDiscountPercentage :=
              jsRound (od.discountAmt / product.sellingPrice * 100) },
          acc.2 - od.discountAmt)
    else acc

/-- Coupon block of calculateItemPrices.  Note that the percentage base
is product.sellingPrice, not the offer-adjusted running price. -/
def applyCouponDiscount (couponDetails : Option Coupon) (product : Product)
    (acc : CartItem × ℚ) : CartItem × ℚ :=
  match couponDetails with
  | none => acc
  | some cd =>
    if cd.isActive &&
        (cd.products.contains product.id || cd.products.isEmpty) then
      match cd.type with
      | DiscountKind.percentage =>
        let couponDiscount :=
          capped (product.sellingPrice * cd.discountPercentage / 100) cd.maxDiscount
        ({ acc.1 with
            couponDiscount := couponDiscount,
            couponDiscountPercentage := cd.discountPercentage },
          acc.2 - couponDiscount)
      | DiscountKind.amount =>
        ({ acc.1 with
            couponDiscount := cd.discountAmt,
            couponDiscountPercentage :=
              jsRound (cd.discountAmt / product.sellingPrice * 100) },
          acc.2 - cd.discountAmt)
    else acc

/-- Per-item body of cartSchema.methods.calculateItemPrices: reset the
price fields from the product, apply the offer, then the coupon, and
clamp the effective price at zero. -/
def calculateItemPrice (offerDetails : Option Offer)
    (couponDetails : Option Coupon) (product : Product)
    (item : CartItem) : CartItem :=
  let item0 : CartItem :=
    { item with
      price := product.price,
      discountAmt := product.discountAmount,
      discountPercentage := product.discountPercentage,
      couponDiscount := 0,
      couponDiscountPercentage := 0,
      offerDiscount := 0,
      offerDiscountPercentage := 0 }
  let acc1 := applyOfferDiscount offerDetails product (item0, product.sellingPrice)
  let acc2 := applyCouponDiscount couponDetails product acc1
  { acc2.1 with effectivePrice := max 0 acc2.2 }

/-- cartSchema.methods.calculateItemPrices: resolve the applied coupon
and offer, then recompute every line; a line whose product cannot be
resolved is skipped unchanged. -/
def calculateItemPrices (products : List Product) (coupons : List Coupon)
    (offers : List Offer) (cart : Cart) : Cart :=
  let couponDetails := cart.coupon.bind (Coupon.findById coupons)
  let offerDetails := cart.offer.bind (Offer.findById offers)
  { cart with
    items := cart.items.map (fun item =>
      match Product.findById products item.product with
      | none => item
      | some product =>
        calculateItemPrice offerDetails couponDetails product item) }

/-! ## Structural lemmas about the discount resolver -/

theorem capped_nonneg {x m : ℚ} (hx : 0 ≤ x) (hm : 0 ≤ m) : 0 ≤ capped x m := by
  unfold capped
  split
  · exact hx
  · exact le_min hx hm

theorem applyOfferDiscount_spec (od : Option Offer) (p : Product)
    (acc : CartItem × ℚ) (h0 : acc.1.offerDiscount = 0)
    (hsp : 0 ≤ p.sellingPrice)
    (hod : ∀ o, od = some o →
      0 ≤ o.discountAmt ∧ 0 ≤ o.discountPercentage ∧ 0 ≤ o.maxDiscount) :
    (applyOfferDiscount od p acc).1.price = acc.1.price ∧
    (applyOfferDiscount od p acc).1.discountAmt = acc.1.discountAmt ∧
    (applyOfferDiscount od p acc).1.couponDiscount = acc.1.couponDiscount ∧
    (applyOfferDiscount od p acc).2 = acc.2 - (applyOfferDiscount od p acc).1.offerDiscount ∧
    0 ≤ (applyOfferDiscount od p acc).1.offerDiscount := by
  obtain ⟨it, e⟩ := acc
  simp only at h0
  cases od with
  | none => simp [applyOfferDiscount, h0]
  | some o =>
    obtain ⟨ha, hpct, hmax⟩ := hod o rfl
    by_cases hc : (o.isActive && (o.products.contains p.id || o.products.isEmpty)) = true
    · have hc' : o.isActive = true ∧ (p.id ∈ o.products ∨ o.products = []) := by
        simpa using hc
      cases ht : o.type with
      | percentage =>
        have hnn : 0 ≤ capped (p.sellingPrice * o.discountPercentage / 100) o.maxDiscount :=
          capped_nonneg (div_nonneg (mul_nonneg hsp hpct) (by norm_num)) hmax
        simp [applyOfferDiscount, hc', ht, h0, hnn]
      | amount =>
        simp [applyOfferDiscount, hc', ht, h0, ha]
    · have hc' : ¬(o.isActive = true ∧ (p.id ∈ o.products ∨ o.products = [])) := by
        simpa using hc
      simp [applyOfferDiscount, hc', h0]

theorem applyCouponDiscount_spec (cd : Option Coupon) (p : Product)
    (acc : CartItem × ℚ) (h0 : acc.1.couponDiscount = 0)
    (hsp : 0 ≤ p.sellingPrice)
    (hcd : ∀ c, cd = some c →
      0 ≤ c.discountAmt ∧ 0 ≤ c.discountPercentage ∧ 0 ≤ c.maxDiscount) :
    (applyCouponDiscount cd p acc).1.price = acc.1.price ∧
    (applyCouponDiscount cd p acc).1.discountAmt = acc.1.discountAmt ∧
    (applyCouponDiscount cd p acc).1.offerDiscount = acc.1.offerDiscount ∧
    (applyCouponDiscount cd p acc).2 = acc.2 - (applyCouponDiscount cd p acc).1.couponDiscount ∧
    0 ≤ (applyCouponDiscount cd p acc).1.couponDiscount := by
  obtain ⟨it, e⟩ := acc
  simp only at h0
  cases cd with
  | none => simp [applyCouponDiscount, h0]
  | some c =>
    obtain ⟨ha, hpct, hmax⟩ := hcd c rfl
    by_cases hc : (c.isActive && (c.products.contains p.id || c.products.isEmpty)) = true
    · have hc' : c.isActive = true ∧ (p.id ∈ c.products ∨ c.products = []) := by
        simpa using hc
      cases ht : c.type with
      | percentage =>
        have hnn : 0 ≤ capped (p.sellingPrice * c.discountPercentage / 100) c.maxDiscount :=
          capped_nonneg (div_nonneg (mul_nonneg hsp hpct) (by norm_num)) hmax
        simp [applyCouponDiscount, hc', ht, h0, hnn]
      | amount =>
        simp [applyCouponDiscount, hc', ht, h0, ha]
    · have hc' : ¬(c.isActive = true ∧ (p.id ∈ c.products ∨ c.products = [])) := by
        simpa using hc
      simp [applyCouponDiscount, hc', h0]

theorem calculateItemPrice_spec (od : Option Offer) (cd : Option Coupon)
    (p : Product) (it : CartItem) (hsp : 0 ≤ p.sellingPrice)
    (hod : ∀ o, od = some o →
      0 ≤ o.discountAmt ∧ 0 ≤ o.discountPercentage ∧ 0 ≤ o.maxDiscount)
    (hcd : ∀ c, cd = some c →
      0 ≤ c.discountAmt ∧ 0 ≤ c.discountPercentage ∧ 0 ≤ c.maxDiscount) :
    (calculateItemPrice od cd p it).price = p.price ∧
    (calculateItemPrice od cd p it).discountAmt = p.discountAmount ∧
    0 ≤ (calculateItemPrice od cd p it).offerDiscount ∧
    0 ≤ (calculateItemPrice od cd p it).couponDiscount ∧
    (calculateItemPrice od cd p it).effectivePrice =
      max 0 (p.sellingPrice - (calculateItemPrice od cd p it).offerDiscount
        - (calculateItemPrice od cd p it).couponDiscount) := by
  obtain ⟨o1, o2, o3, o4, o5⟩ :=
    applyOfferDiscount_spec od p
      ({ it with
          price := p.price,
          discountAmt := p.discountAmount,
          discountPercentage := p.discountPercentage,
          couponDiscount := 0,
          couponDiscountPercentage := 0,
          offerDiscount := 0,
          offerDiscountPercentage := 0 }, p.sellingPrice) rfl hsp hod
  obtain ⟨c1, c2, c3, c4, c5⟩ :=
    applyCouponDiscount_spec cd p
      (applyOfferDiscount od p
        ({ it with
            price := p.price,
            discountAmt := p.discountAmount,
            discountPercentage := p.discountPercentage,
            couponDiscount := 0,
            couponDiscountPercentage := 0,
            offerDiscount := 0,
            offerDiscountPercentage := 0 }, p.sellingPrice)) (by rw [o3]) hsp hcd
  unfold calculateItemPrice
  simp only []
  refine ⟨?_, ?_, ?_, ?_, ?_⟩
  · simpa [c1] using o1
  · simpa [c2] using o2
  · simpa [c3] using o5
  · simpa using c5
  · rw [c4, o4, c3]

theorem applyCouponDiscount_percentage_value (c : Coupon) (p : Product)
    (acc : CartItem × ℚ) (hact : c.isActive = true)
    (happ : p.id ∈ c.products ∨ c.products = [])
    (ht : c.type = DiscountKind.percentage) :
    (applyCouponDiscount (some c) p acc).1.couponDiscount =
      capped (p.sellingPrice * c.discountPercentage / 100) c.maxDiscount := by
  obtain ⟨it, e⟩ := acc
  simp [applyCouponDiscount, hact, happ, ht]

/-- C2: a cart holding one line on a product with base and selling price
1000 and no product discount, with an applied active 10 percent Offer
capped at 80 and an applied active flat 50 Coupon, recomputes to an
effective price of 870, with offer discount 80 and coupon discount 50. -/
theorem claim_C2_scenarioA :
    (calculateItemPrices
      [⟨1, 1000, 1000, 0, 0, false⟩]
      [⟨20, 1, "SAVE50", 50, 0, DiscountKind.amount, 0, true, [], false⟩]
      [⟨10, 1, 0, 10, DiscountKind.percentage, 80, true, [], false⟩]
      ⟨7, 1, [⟨1, 1, 0, 0, 0, 0, 0, 0, 0, 0⟩], some 20, some 10⟩).items =
    [{ product := 1, quantity := 1, effectivePrice := 870, price := 1000,
       discountAmt := 0, discountPercentage := 0, couponDiscount := 50,
       couponDiscountPercentage := 5, offerDiscount := 80,
       offerDiscountPercentage := 10 }] := by
  simp only [calculateItemPrices, calculateItemPrice,
    applyOfferDiscount, applyCouponDiscount,
    Product.findById, Offer.findById, Coupon.findById,
    capped, jsRound, List.find?, Option.bind, List.map]
  norm_num

/-- C3 (amended): for an applied active percentage Coupon that applies to
the line, the coupon discount amount is computed on the original selling
price (capped by maxDiscount) and is then subtracted from the
offer-adjusted price; application order stays product discount (baked
into the selling price), then Offer, then Coupon. -/
theorem claim_C3_coupon_percentage_base (od : Option Offer) (c : Coupon)
    (p : Product) (it : CartItem)
    (hact : c.isActive = true)
    (happ : p.id ∈ c.products ∨ c.products = [])
    (ht : c.type = DiscountKind.percentage)
    (hsp : 0 ≤ p.sellingPrice)
    (hod : ∀ o, od = some o →
      0 ≤ o.discountAmt ∧ 0 ≤ o.discountPercentage ∧ 0 ≤ o.maxDiscount)
    (hcn : 0 ≤ c.discountAmt ∧ 0 ≤ c.discountPercentage ∧ 0 ≤ c.maxDiscount) :
    (calculateItemPrice od (some c) p it).couponDiscount =
      capped (p.sellingPrice * c.discountPercentage / 100) c.maxDiscount ∧
    (calculateItemPrice od (some c) p it).effectivePrice =
      max 0 ((p.sellingPrice - (calculateItemPrice od (some c) p it).offerDiscount)
        - (calculateItemPrice od (some c) p it).couponDiscount) := by
  obtain ⟨o1, o2, o3, o4, o5⟩ :=
    applyOfferDiscount_spec od p
      ({ it with
          price := p.price,
          discountAmt := p.discountAmount,
          discountPercentage := p.discountPercentage,
          couponDiscount := 0,
          couponDiscountPercentage := 0,
          offerDiscount := 0,
          offerDiscountPercentage := 0 }, p.sellingPrice) rfl hsp hod
  obtain ⟨c1, c2, c3, c4, c5⟩ :=
    applyCouponDiscount_spec (some c) p
      (applyOfferDiscount od p
        ({ it with
            price := p.price,
            discountAmt := p.discountAmount,
            discountPercentage := p.discountPercentage,
            couponDiscount := 0,
            couponDiscountPercentage := 0,
            offerDiscount := 0,
            offerDiscountPercentage := 0 }, p.sellingPrice)) (by rw [o3])
      hsp (fun x hx => by cases hx; exact hcn)
  have hval := applyCouponDiscount_percentage_value c p
    (applyOfferDiscount od p
      ({ it with
          price := p.price,
          discountAmt := p.discountAmount,
          discountPercentage := p.discountPercentage,
          couponDiscount := 0,
          couponDiscountPercentage := 0,
          offerDiscount := 0,
          offerDiscountPercentage := 0 }, p.sellingPrice)) hact happ ht
  unfold calculateItemPrice
  simp only []
  refine ⟨hval, ?_⟩
  rw [c4, o4, c3]

/-- C3 witness: an amount Offer of 50 and an applied 10 percent Coupon on
a product with selling price 100 give a coupon discount of 10 (10 percent
of the original selling price) subtracted after the offer. -/
theorem claim_C3_witness :
    (0:ℚ) ≤ (100:ℚ) ∧
    ((calculateItemPrice
        (some ⟨10, 1, 50, 0, DiscountKind.amount, 0, true, [], false⟩)
        (some ⟨20, 1, "C10", 0, 10, DiscountKind.percentage, 0, true, [], false⟩)
        ⟨1, 100, 100, 0, 0, false⟩ ⟨1, 1, 0, 0, 0, 0, 0, 0, 0, 0⟩).couponDiscount =
      capped ((100:ℚ) * 10 / 100) 0 ∧
    (calculateItemPrice
        (some ⟨10, 1, 50, 0, DiscountKind.amount, 0, true, [], false⟩)
        (some ⟨20, 1, "C10", 0, 10, DiscountKind.percentage, 0, true, [], false⟩)
        ⟨1, 100, 100, 0, 0, false⟩ ⟨1, 1, 0, 0, 0, 0, 0, 0, 0, 0⟩).effectivePrice =
      max 0 (((100:ℚ) - (calculateItemPrice
        (some ⟨10, 1, 50, 0, DiscountKind.amount, 0, true, [], false⟩)
        (some ⟨20, 1, "C10", 0, 10, DiscountKind.percentage, 0, true, [], false⟩)
        ⟨1, 100, 100, 0, 0, false⟩ ⟨1, 1, 0, 0, 0, 0, 0, 0, 0, 0⟩).offerDiscount)
        - (calculateItemPrice
        (some ⟨10, 1, 50, 0, DiscountKind.amount, 0, true, [], false⟩)
        (some ⟨20, 1, "C10", 0, 10, DiscountKind.percentage, 0, true, [], false⟩)
        ⟨1, 100, 100, 0, 0, false⟩ ⟨1, 1, 0, 0, 0, 0, 0, 0, 0, 0⟩).couponDiscount)) :=
  ⟨by norm_num,
    claim_C3_coupon_percentage_base
      (some ⟨10, 1, 50, 0, DiscountKind.amount, 0, true, [], false⟩)
      ⟨20, 1, "C10", 0, 10, DiscountKind.percentage, 0, true, [], false⟩
      ⟨1, 100, 100, 0, 0, false⟩ ⟨1, 1, 0, 0, 0, 0, 0, 0, 0, 0⟩
      rfl (Or.inr rfl) rfl (by norm_num)
      (fun o h => by cases h; exact ⟨by norm_num, by norm_num, by norm_num⟩)
      ⟨by norm_num, by norm_num, by norm_num⟩⟩

/-- C3 counterexample: with an amount Offer of 50 already applied to a
selling price of 100, a 10 percent Coupon yields a discount of 10, which
is 10 percent of the original selling price, not 10 percent of the
offer-adjusted price 50 (which would be 5). -/
theorem claim_C3_counterexample :
    (calculateItemPrice
        (some ⟨10, 1, 50, 0, DiscountKind.amount, 0, true, [], false⟩)
        (some ⟨20, 1, "C10", 0, 10, DiscountKind.percentage, 0, true, [], false⟩)
        ⟨1, 100, 100, 0, 0, false⟩ ⟨1, 1, 0, 0, 0, 0, 0, 0, 0, 0⟩).offerDiscount = 50 ∧
    (calculateItemPrice
        (some ⟨10, 1, 50, 0, DiscountKind.amount, 0, true, [], false⟩)
        (some ⟨20, 1, "C10", 0, 10, DiscountKind.percentage, 0, true, [], false⟩)
        ⟨1, 100, 100, 0, 0, false⟩ ⟨1, 1, 0, 0, 0, 0, 0, 0, 0, 0⟩).couponDiscount = 10 ∧
    capped (((100:ℚ) - 50) * 10 / 100) 0 = 5 ∧
    ((10:ℚ) ≠ capped (((100:ℚ) - 50) * 10 / 100) 0) := by
  refine ⟨?_, ?_, ?_, ?_⟩ <;>
    · simp only [calculateItemPrice, applyOfferDiscount, applyCouponDiscount,
        capped, jsRound]
      norm_num

/-- C4 (amended): whenever the products satisfy the schema constraints
and the pre-save derivation (0 ≤ sellingPrice ≤ price, discountAmount =
price − sellingPrice) and the discount entities carry non-negative
amounts, percentages and caps, every recomputed line satisfies
effectivePrice = max(0, basePrice − productDiscount − offerDiscount −
couponDiscount) and 0 ≤ effectivePrice ≤ basePrice. -/
theorem claim_C4_effectivePrice_bounds
    (products : List Product) (coupons : List Coupon) (offers : List Offer)
    (cart : Cart)
    (hprod : ∀ p ∈ products, 0 ≤ p.sellingPrice ∧ p.sellingPrice ≤ p.price ∧
      p.discountAmount = p.price - p.sellingPrice)
    (hoff : ∀ o ∈ offers,
      0 ≤ o.discountAmt ∧ 0 ≤ o.discountPercentage ∧ 0 ≤ o.maxDiscount)
    (hcoup : ∀ c ∈ coupons,
      0 ≤ c.discountAmt ∧ 0 ≤ c.discountPercentage ∧ 0 ≤ c.maxDiscount)
    (hres : ∀ it ∈ cart.items, (Product.findById products it.product).isSome) :
    ∀ out ∈ (calculateItemPrices products coupons offers cart).items,
      out.effectivePrice =
        max 0 (out.price - out.discountAmt - out.offerDiscount - out.couponDiscount) ∧
      0 ≤ out.effectivePrice ∧ out.effectivePrice ≤ out.price := by
  intro out hout
  simp only [calculateItemPrices, List.mem_map] at hout
  obtain ⟨it, hit, hout⟩ := hout
  cases hfind : Product.findById products it.product with
  | none =>
    have := hres it hit
    rw [hfind] at this
    simp at this
  | some p =>
    rw [hfind] at hout
    have hpmem : p ∈ products := by
      have := List.mem_of_find?_eq_some hfind
      exact this
    obtain ⟨hsp, hsp2, hda⟩ := hprod p hpmem
    have hod : ∀ o, cart.offer.bind (Offer.findById offers) = some o →
        0 ≤ o.discountAmt ∧ 0 ≤ o.discountPercentage ∧ 0 ≤ o.maxDiscount := by
      intro o h
      rcases Option.bind_eq_some.mp h with ⟨i, _, hfo⟩
      exact hoff o (List.mem_of_find?_eq_some hfo)
    have hcd : ∀ c, cart.coupon.bind (Coupon.findById coupons) = some c →
        0 ≤ c.discountAmt ∧ 0 ≤ c.discountPercentage ∧ 0 ≤ c.maxDiscount := by
      intro c h
      rcases Option.bind_eq_some.mp h with ⟨i, _, hfc⟩
      exact hcoup c (List.mem_of_find?_eq_some hfc)
    obtain ⟨s1, s2, s3, s4, s5⟩ :=
      calculateItemPrice_spec (cart.offer.bind (Offer.findById offers))
        (cart.coupon.bind (Coupon.findById coupons)) p it hsp hod hcd
    subst hout
    refine ⟨?_, ?_, ?_⟩
    · rw [s5, s1, s2, hda]
      ring_nf
    · rw [s5]
      exact le_max_left _ _
    · rw [s5, s1]
      exact max_le (by linarith) (by linarith)

/-- C4 witness: a product with price 1000, selling price 800 and derived
product discount 200, with no offer and no coupon, recomputes to the line
(effectivePrice 800, basePrice 1000) which satisfies the amended bounds
and formula. -/
theorem claim_C4_witness :
    (0:ℚ) ≤ (800:ℚ) ∧
    ((⟨1, 1, 800, 1000, 200, 20, 0, 0, 0, 0⟩ : CartItem).effectivePrice =
      max 0 ((⟨1, 1, 800, 1000, 200, 20, 0, 0, 0, 0⟩ : CartItem).price
        - (⟨1, 1, 800, 1000, 200, 20, 0, 0, 0, 0⟩ : CartItem).discountAmt
        - (⟨1, 1, 800, 1000, 200, 20, 0, 0, 0, 0⟩ : CartItem).offerDiscount
        - (⟨1, 1, 800, 1000, 200, 20, 0, 0, 0, 0⟩ : CartItem).couponDiscount) ∧
      0 ≤ (⟨1, 1, 800, 1000, 200, 20, 0, 0, 0, 0⟩ : CartItem).effectivePrice ∧
      (⟨1, 1, 800, 1000, 200, 20, 0, 0, 0, 0⟩ : CartItem).effectivePrice ≤
        (⟨1, 1, 800, 1000, 200, 20, 0, 0, 0, 0⟩ : CartItem).price) :=
  ⟨by norm_num,
    claim_C4_effectivePrice_bounds
      [⟨1, 1000, 800, 200, 20, false⟩] [] []
      ⟨7, 1, [⟨1, 1, 0, 0, 0, 0, 0, 0, 0, 0⟩], none, none⟩
      (by intro p hp; cases hp with
        | head => exact ⟨by norm_num, by norm_num, by norm_num⟩
        | tail _ h => cases h)
      (by intro o ho; cases ho)
      (by intro c hc; cases hc)
      (by intro it hit; cases hit with
        | head => decide
        | tail _ h => cases h)
      ⟨1, 1, 800, 1000, 200, 20, 0, 0, 0, 0⟩
      (by decide)⟩

/-- C4 counterexample: a product whose selling price 150 exceeds its base
price 100 passes the product pre-save hook with zero derived discount, and
the recomputed line has effectivePrice 150 strictly above its base price
100, violating both the bound and the formula of the claim. -/
theorem claim_C4_counterexample :
    (calculateItemPrices [productPreSave ⟨1, 100, 150, 0, 0, false⟩] [] []
      ⟨7, 1, [⟨1, 1, 0, 0, 0, 0, 0, 0, 0, 0⟩], none, none⟩).items =
      [{ product := 1, quantity := 1, effectivePrice := 150, price := 100,
         discountAmt := 0, discountPercentage := 0, couponDiscount := 0,
         couponDiscountPercentage := 0, offerDiscount := 0,
         offerDiscountPercentage := 0 }] ∧
    ¬((150:ℚ) ≤ 100 ∧
      (150:ℚ) = max 0 ((100:ℚ) - 0 - 0 - 0)) := by
  constructor
  · simp only [calculateItemPrices, calculateItemPrice, productPreSave,
      applyOfferDiscount, applyCouponDiscount, Product.findById,
      List.find?, Option.bind, List.map]
    norm_num
  · intro h
    have := h.1
    norm_num at this

/-! ## Orders, payments, delivery tracking and payouts (data model) -/

/-- Payment status enum shared by Payment.status and Order.paymentStatus. -/
inductive PaymentStatus
  | pending
  | authorized
  | captured
  | refunded
  | partially_refunded
  | failed
deriving DecidableEq

/-- Order status enum (models/Order.ts OrderStatusType). -/
inductive OrderStatus
  | pending
  | confirmed
  | processing
  | shipped
  | delivered
  | cancelled
  | returned
  | partially_cancelled
  | partially_returned
deriving DecidableEq

/-- Per-item status inside an order. -/
inductive ItemStatus
  | active
  | cancelled
  | returned
deriving DecidableEq

/-- Order line item (orderItemSchema). -/
structure OrderItem where
  product : Nat
  quantity : Nat
  price : ℚ
  discountedPrice : ℚ
  totalPrice : ℚ
  status : ItemStatus
  cancelledAt : Option Unit
  cancelReason : Option String
deriving DecidableEq

/-- Order document: the fields used by the payment, cancellation and
payout paths. -/
structure Order where
  id : Nat
  user : Nat
  store : Nat
  items : List OrderItem
  paymentStatus : PaymentStatus
  paymentId : Option Nat
  orderStatus : OrderStatus
  totalPayableAmount : ℚ
  deliveryTrackingId : Option Nat
  cancelledAt : Option Unit
  cancelReason : Option String
deriving DecidableEq

/-- Webhook payment entity of a Razorpay payment.* event payload. -/
structure WebhookPayment where
  id : String
  order_id : String
deriving DecidableEq

/-- Webhook refund entity of a refund.processed event payload; amount is
in paise as delivered by the gateway. -/
structure WebhookRefund where
  id : String
  payment_id : String
  amount : ℚ
  status : String
deriving DecidableEq

/-- Payment document (models/Payment). -/
structure Payment where
  id : Nat
  user : Nat
  order : Nat
  amount : ℚ
  razorpayOrderId : Option String
  razorpayPaymentId : Option String
  razorpaySignature : Option String
  status : PaymentStatus
  refundAmount : Option ℚ
  refundReason : Option String
  refundId : Option String
  refundStatus : Option String
  refundedAt : Option Unit
  paymentResponse : Option WebhookPayment
deriving DecidableEq

/-- Delivery tracking status update entry (timestamp elided). -/
structure DeliveryUpdate where
  status : String
  description : String
deriving DecidableEq

/-- Delivery tracking document. -/
structure DeliveryTracking where
  id : Nat
  currentStatus : String
  statusUpdates : List DeliveryUpdate
deriving DecidableEq

/-- Payout status enum. -/
inductive PayoutStatus
  | pending
  | processing
  | completed
  | failed
deriving DecidableEq

/-- Payout line item referencing one order. -/
structure PayoutItem where
  order : Nat
  amount : ℚ
  platformFee : ℚ
  tax : ℚ
  netAmount : ℚ
deriving DecidableEq

/-- Payout batch document; payoutBatch is the sequential batch number
(the source formats it with the current date). -/
structure Payout where
  store : Nat
  payoutBatch : Nat
  items : List PayoutItem
  totalAmount : ℚ
  totalPlatformFee : ℚ
  totalTax : ℚ
  netPayoutAmount : ℚ
  status : PayoutStatus
deriving DecidableEq

/-- Persistent state: the collections touched by the embedded actions. -/
structure Db where
  stores : List Nat
  orders : List Order
  payments : List Payment
  trackings : List DeliveryTracking
  payouts : List Payout
deriving DecidableEq

/-! ## Payment reconciliation (controllers/paymentController.ts) -/

/-- Payment record mutation of handlePaymentCaptured. -/
def capturePaymentUpdate (payment : WebhookPayment) (pr : Payment) : Payment :=
  { pr with status := PaymentStatus.captured, paymentResponse := some payment }

/-- Order mutation shared by the captured webhook and the synchronous
verification path: mirror captured and advance pending to confirmed. -/
def captureOrderUpdate (o : Order) : Order :=
  { o with
    paymentStatus := PaymentStatus.captured,
    orderStatus :=
      if o.orderStatus = OrderStatus.pending then OrderStatus.confirmed
      else o.orderStatus }

/-- Body of handlePaymentCaptured: look the Payment up by gateway payment
id, mark it captured, mirror captured onto the Order (advancing a pending
order to confirmed) and append a processing update to the tracking. -/
def handlePaymentCaptured (payment : WebhookPayment) (db : Db) : Db :=
  match db.payments.find? (fun pr => pr.razorpayPaymentId == some payment.id) with
  | none => db
  | some paymentRecord =>
    let db1 : Db :=
      { db with
        payments := updateFirst (fun pr => pr.razorpayPaymentId == some payment.id)
          (capturePaymentUpdate payment) db.payments }
    match db1.orders.find? (fun o => o.id == paymentRecord.order) with
    | none => db1
    | some order =>
      let db2 : Db :=
        { db1 with
          orders := updateFirst (fun o => o.id == paymentRecord.order)
            captureOrderUpdate db1.orders }
      match order.deliveryTrackingId with
      | none => db2
      | some tid =>
        match db2.trackings.find? (fun t => t.id == tid) with
        | none => db2
        | some _ =>
          { db2 with
            trackings := updateFirst (fun t => t.id == tid)
              (fun t =>
                { t with
                  statusUpdates := t.statusUpdates ++
                    [⟨"processing", "Payment received, order confirmed"⟩],
                  currentStatus := "processing" }) db2.trackings }

/-- Body of handlePaymentFailed: look the Payment up by gateway order id
and unconditionally mark payment and order failed. -/
def handlePaymentFailed (payment : WebhookPayment) (db : Db) : Db :=
  match db.payments.find? (fun pr => pr.razorpayOrderId == some payment.order_id) with
  | none => db
  | some paymentRecord =>
    let db1 : Db :=
      { db with
        payments := updateFirst (fun pr => pr.razorpayOrderId == some payment.order_id)
          (fun pr => { pr with razorpayPaymentId := some payment.id,
                               status := PaymentStatus.failed,
                               paymentResponse := some payment }) db.payments }
    match db1.orders.find? (fun o => o.id == paymentRecord.order) with
    | none => db1
    | some _ =>
      { db1 with
        orders := updateFirst (fun o => o.id == paymentRecord.order)
          (fun o => { o with paymentStatus := PaymentStatus.failed }) db1.orders }

/-- Body of handlePaymentAuthorized: mark the Payment authorized. -/
def handlePaymentAuthorized (payment : WebhookPayment) (db : Db) : Db :=
  match db.payments.find? (fun pr => pr.razorpayOrderId == some payment.order_id) with
  | none => db
  | some _ =>
    { db with
      payments := updateFirst (fun pr => pr.razorpayOrderId == some payment.order_id)
        (fun pr => { pr with razorpayPaymentId := some payment.id,
                             status := PaymentStatus.authorized,
                             paymentResponse := some payment }) db.payments }

/-- Body of handleRefundProcessed: record the refund (gateway amount is
in paise) and set refunded or partially refunded depending on whether the
refund covers the full payment amount. -/
def handleRefundProcessed (refund : WebhookRefund) (db : Db) : Db :=
  match db.payments.find? (fun pr => pr.razorpayPaymentId == some refund.payment_id) with
  | none => db
  | some paymentRecord =>
    let refundAmount := refund.amount / 100
    let db1 : Db :=
      { db with
        payments := updateFirst (fun pr => pr.razorpayPaymentId == some refund.payment_id)
          (fun pr =>
            { pr with
              refundAmount := some refundAmount,
              refundId := some refund.id,
              refundStatus := some refund.status,
              refundedAt := some (),
              status :=
                if refundAmount = pr.amount then PaymentStatus.refunded
                else PaymentStatus.partially_refunded }) db.payments }
    match db1.orders.find? (fun o => o.id == paymentRecord.order) with
    | none => db1
    | some _ =>
      { db1 with
        orders := updateFirst (fun o => o.id == paymentRecord.order)
          (fun o =>
            { o with
              paymentStatus :=
                if refundAmount = paymentRecord.amount then PaymentStatus.refunded
                else PaymentStatus.partially_refunded }) db1.orders }

/-- Webhook body: the event name with its payload. -/
inductive WebhookBody
  | payment_authorized (payment : WebhookPayment)
  | payment_captured (payment : WebhookPayment)
  | payment_failed (payment : WebhookPayment)
  | refund_processed (refund : WebhookRefund)
  | unhandled (event : String)
deriving DecidableEq

/-- Inbound webhook request: the raw body over which the gateway signs,
its parsed event, and the signature header when present. -/
structure WebhookRequest where
  rawBody : String
  body : WebhookBody
  signature : Option String
deriving DecidableEq

/-- Event dispatch of the webhook handler. -/
def dispatchWebhookEvent (body : WebhookBody) (db : Db) : Db :=
  match body with
  | WebhookBody.payment_authorized p => handlePaymentAuthorized p db
  | WebhookBody.payment_captured p => handlePaymentCaptured p db
  | WebhookBody.payment_failed p => handlePaymentFailed p db
  | WebhookBody.refund_processed r => handleRefundProcessed r db
  | WebhookBody.unhandled _ => db

/-- webhookHandler: when a webhook secret is configured, require the
signature header and compare it with the HMAC of the raw body computed by
the supplied hmac function; reject with 400 on absence or mismatch.  When
no secret is configured the event is dispatched without verification. -/
def webhookHandler (hmac : String → String → String)
    (webhookSecret : Option String) (req : WebhookRequest) (db : Db) :
    Nat × Db :=
  match webhookSecret with
  | some secret =>
    match req.signature with
    | none => (400, db)
    | some signature =>
      if hmac secret req.rawBody ≠ signature then (400, db)
      else (200, dispatchWebhookEvent req.body db)
  | none => (200, dispatchWebhookEvent req.body db)

/-! ## Order status updates and cancellation (orderController) -/

/-- Rendering of an order status as the string stored in tracking. -/
def orderStatusString : OrderStatus → String
  | OrderStatus.pending => "pending"
  | OrderStatus.confirmed => "confirmed"
  | OrderStatus.processing => "processing"
  | OrderStatus.shipped => "shipped"
  | OrderStatus.delivered => "delivered"
  | OrderStatus.cancelled => "cancelled"
  | OrderStatus.returned => "returned"
  | OrderStatus.partially_cancelled => "partially_cancelled"
  | OrderStatus.partially_returned => "partially_returned"

/-- Tracking description chosen by the switch in updateOrderStatus. -/
def updateOrderStatusDescription (status : OrderStatus) : String :=
  match status with
  | OrderStatus.confirmed => "Order has been confirmed"
  | OrderStatus.processing => "Order is being processed"
  | OrderStatus.shipped => "Order has been shipped"
  | OrderStatus.delivered => "Order has been delivered"
  | OrderStatus.cancelled => "Order has been cancelled"
  | s => "Order status updated to " ++ orderStatusString s

/-- Shared source block: find the delivery tracking of an order, append a
status update, and optionally replace the current status. -/
def pushTrackingUpdate (tid : Option Nat) (upd : DeliveryUpdate)
    (newCurrent : Option String) (db : Db) : Db :=
  match tid with
  | none => db
  | some t =>
    match db.trackings.find? (fun tr => tr.id == t) with
    | none => db
    | some _ =>
      { db with
        trackings := updateFirst (fun tr => tr.id == t)
          (fun tr =>
            { tr with
              statusUpdates := tr.statusUpdates ++ [upd],
              currentStatus := newCurrent.getD tr.currentStatus }) db.trackings }

/-- updateOrderStatus: assign the requested status without any transition
validation; when the new status is cancelled and the payment was
captured, mark the payment status refunded; then log to tracking. -/
def updateOrderStatus (orderId : Nat) (status : OrderStatus) (db : Db) :
    Nat × Db :=
  match db.orders.find? (fun o => o.id == orderId) with
  | none => (404, db)
  | some order =>
    let db1 : Db :=
      { db with
        orders := updateFirst (fun o => o.id == orderId)
          (fun o =>
            let o1 := { o with orderStatus := status }
            if status = OrderStatus.cancelled ∧
                o.paymentStatus = PaymentStatus.captured then
              { o1 with paymentStatus := PaymentStatus.refunded }
            else o1) db.orders }
    let db2 := pushTrackingUpdate order.deliveryTrackingId
      ⟨orderStatusString status, updateOrderStatusDescription status⟩
      (some (orderStatusString status)) db1
    (200, db2)

/-- Statuses from which an order (or its items) may still be cancelled. -/
def allowedStatusForCancellation : List OrderStatus :=
  [OrderStatus.pending, OrderStatus.confirmed, OrderStatus.processing]

/-- cancelOrder: full cancellation, allowed only from pending, confirmed
or processing; marks the order and all items cancelled, logs tracking,
and issues a best-effort full refund when the payment was captured. -/
def cancelOrder (orderId userId : Nat) (reason : String)
    (refundResult : Option (String × String)) (db : Db) : Nat × Db :=
  match db.orders.find? (fun o => o.id == orderId && o.user == userId) with
  | none => (404, db)
  | some order =>
    if !(allowedStatusForCancellation.contains order.orderStatus) then (400, db)
    else
      let db1 : Db :=
        { db with
          orders := updateFirst (fun o => o.id == orderId)
            (fun o =>
              { o with
                orderStatus := OrderStatus.cancelled,
                cancelledAt := some (),
                cancelReason := some reason,
                items := o.items.map (fun it =>
                  { it with
                    status := ItemStatus.cancelled,
                    cancelledAt := some (),
                    cancelReason := some reason }) }) db.orders }
      let db2 := pushTrackingUpdate order.deliveryTrackingId
        ⟨"cancelled", "Order cancelled by customer. Reason: " ++ reason⟩
        (some "cancelled") db1
      match order.paymentId with
      | none => (200, db2)
      | some pid =>
        if order.paymentStatus = PaymentStatus.captured then
          match db2.payments.find? (fun pr => pr.id == pid) with
          | none => (200, db2)
          | some payment =>
            if payment.razorpayPaymentId.isSome then
              match refundResult with
              | none => (200, db2)
              | some r =>
                let db3 : Db :=
                  { db2 with
                    payments := updateFirst (fun pr => pr.id == pid)
                      (fun pr =>
                        { pr with
                          refundAmount := some pr.amount,
                          refundReason := some reason,
                          refundId := some r.1,
                          refundStatus := some r.2,
                          refundedAt := some (),
                          status := PaymentStatus.refunded }) db2.payments }
                (200, { db3 with
                  orders := updateFirst (fun o => o.id == orderId)
                    (fun o => { o with paymentStatus := PaymentStatus.refunded })
                    db3.orders })
            else (200, db2)
        else (200, db2)

/-- Mutation applied to an order item cancelled by cancelOrderItems. -/
def cancelMark (reason : String) (it : OrderItem) : OrderItem :=
  { it with
    status := ItemStatus.cancelled,
    cancelledAt := some (),
    cancelReason := some reason }

/-- Item pass of cancelOrderItems: cancel the active items at the
requested indices. -/
def cancelItemsUpdate (idxs : List Nat) (reason : String)
    (items : List OrderItem) : List OrderItem :=
  items.enum.map (fun q =>
    if idxs.contains q.1 && q.2.status == ItemStatus.active then
      cancelMark reason q.2
    else q.2)

/-- Refund accumulator of cancelOrderItems: sum of totalPrice over the
active items at the requested indices. -/
def cancelRefundAmount (idxs : List Nat) (items : List OrderItem) : ℚ :=
  items.enum.foldl (fun acc q =>
    if idxs.contains q.1 && q.2.status == ItemStatus.active then
      acc + q.2.totalPrice
    else acc) 0

/-- Flag of cancelOrderItems: true when no active item outside the
requested indices remains. -/
def allItemsCancelledAfter (idxs : List Nat) (items : List OrderItem) : Bool :=
  items.enum.all (fun q =>
    !(q.2.status == ItemStatus.active) || idxs.contains q.1)

/-- Order mutation of the cancellation pass of cancelOrderItems. -/
def cancelItemsOrderUpdate (allItemsCancelled : Bool)
    (newItems : List OrderItem) (reason : String) (o : Order) : Order :=
  if allItemsCancelled then
    { o with
      items := newItems,
      orderStatus := OrderStatus.cancelled,
      cancelledAt := some (),
      cancelReason := some reason }
  else
    { o with
      items := newItems,
      orderStatus := OrderStatus.partially_cancelled }

/-- Payment mutation of the refund block of cancelOrderItems. -/
def cancelItemsPaymentUpdate (allItemsCancelled : Bool) (refundAmount : ℚ)
    (reason : String) (r : String × String) (pr : Payment) : Payment :=
  { pr with
    refundAmount := some refundAmount,
    refundReason := some reason,
    refundId := some r.1,
    refundStatus := some r.2,
    refundedAt := some (),
    status :=
      if allItemsCancelled then PaymentStatus.refunded
      else PaymentStatus.partially_refunded }

/-- Order payment status mutation of the refund block. -/
def cancelItemsPaymentStatusUpdate (allItemsCancelled : Bool) (o : Order) :
    Order :=
  { o with
    paymentStatus :=
      if allItemsCancelled then PaymentStatus.refunded
      else PaymentStatus.partially_refunded }

/-- cancelOrderItems: partial cancellation of the active items at the
given indices, allowed only from pending, confirmed or processing;
the order becomes cancelled when no active item remains and
partially cancelled otherwise, and a captured payment is refunded for the
accumulated amount when that amount is positive. -/
def cancelOrderItems (orderId userId : Nat) (idxs : List Nat)
    (reason : String) (refundResult : Option (String × String)) (db : Db) :
    Nat × Db :=
  if idxs.isEmpty then (400, db)
  else
    match db.orders.find? (fun o => o.id == orderId && o.user == userId) with
    | none => (404, db)
    | some order =>
      if !(allowedStatusForCancellation.contains order.orderStatus) then (400, db)
      else
        let newItems := cancelItemsUpdate idxs reason order.items
        let refundAmount := cancelRefundAmount idxs order.items
        let allItemsCancelled := allItemsCancelledAfter idxs order.items
        let db1 : Db :=
          { db with
            orders := updateFirst (fun o => o.id == orderId)
              (cancelItemsOrderUpdate allItemsCancelled newItems reason)
              db.orders }
        let db2 := pushTrackingUpdate order.deliveryTrackingId
          ⟨if allItemsCancelled then "cancelled" else "processing",
            if allItemsCancelled then
              "Order cancelled by customer. Reason: " ++ reason
            else
              "Some items cancelled by customer. Reason: " ++ reason⟩
          (if allItemsCancelled then some "cancelled" else none) db1
        match order.paymentId with
        | none => (200, db2)
        | some pid =>
          if 0 < refundAmount ∧ order.paymentStatus = PaymentStatus.captured then
            match db2.payments.find? (fun pr => pr.id == pid) with
            | none => (200, db2)
            | some payment =>
              if payment.razorpayPaymentId.isSome then
                match refundResult with
                | none => (200, db2)
                | some r =>
                  let db3 : Db :=
                    { db2 with
                      payments := updateFirst (fun pr => pr.id == pid)
                        (cancelItemsPaymentUpdate allItemsCancelled
                          refundAmount reason r) db2.payments }
                  (200, { db3 with
                    orders := updateFirst (fun o => o.id == orderId)
                      (cancelItemsPaymentStatusUpdate allItemsCancelled)
                      db3.orders })
              else (200, db2)
          else (200, db2)

/-! ## Payout batching (payoutController, part of the unnamed sources) -/

/-- Payout.distinct of the order ids referenced by the existing payouts
of the given store (membership in this list is what matters). -/
def ordersInPayouts (storeId : Nat) (db : Db) : List Nat :=
  (db.payouts.filter (fun p => p.store == storeId)).flatMap
    (fun p => p.items.map (fun it => it.order))

/-- Eligibility query of generatePayout: orders of the store among the
requested ids, delivered and captured, not yet referenced by a payout of
the store. -/
def eligiblePayoutOrders (storeId : Nat) (orderIds : List Nat) (db : Db) :
    List Order :=
  db.orders.filter (fun o =>
    orderIds.contains o.id && !((ordersInPayouts storeId db).contains o.id) &&
    o.store == storeId && o.orderStatus == OrderStatus.delivered &&
    o.paymentStatus == PaymentStatus.captured)

/-- Per-order payout item: platform fee as a percentage, zero tax. -/
def mkPayoutItem (platformFeePercentage : ℚ) (o : Order) : PayoutItem :=
  let amount := o.totalPayableAmount
  let platformFee := amount * platformFeePercentage / 100
  let tax : ℚ := 0
  { order := o.id, amount := amount, platformFee := platformFee,
    tax := tax, netAmount := amount - platformFee - tax }

/-- Payout batch built over the eligible orders. -/
def mkPayout (storeId : Nat) (platformFeePercentage : ℚ)
    (orders : List Order) (batch : Nat) : Payout :=
  let payoutItems := orders.map (mkPayoutItem platformFeePercentage)
  let totalAmount := (payoutItems.map (fun it => it.amount)).sum
  let totalPlatformFee := (payoutItems.map (fun it => it.platformFee)).sum
  let totalTax := (payoutItems.map (fun it => it.tax)).sum
  { store := storeId,
    payoutBatch := batch,
    items := payoutItems,
    totalAmount := totalAmount,
    totalPlatformFee := totalPlatformFee,
    totalTax := totalTax,
    netPayoutAmount := totalAmount - totalPlatformFee - totalTax,
    status := PayoutStatus.pending }

/-- generatePayout: validate the store, select the orders of that store
with delivered status and captured payment among the requested ids that
are not yet referenced by a payout of the store, compute fees and create
a pending payout batch appended to the payout collection. -/
def generatePayout (storeId : Nat) (orderIds : List Nat)
    (platformFeePercentage : ℚ) (db : Db) : Nat × Db :=
  if !(db.stores.contains storeId) then (404, db)
  else
    let orders := eligiblePayoutOrders storeId orderIds db
    if orders.isEmpty then (400, db)
    else
      (201, { db with
        payouts := db.payouts ++
          [mkPayout storeId platformFeePercentage orders
            (db.payouts.length + 1)] })

/-- One payout-generation request: store id, order ids, fee percent. -/
structure PayoutRequest where
  storeId : Nat
  orderIds : List Nat
  platformFeePercentage : ℚ
deriving DecidableEq

/-- Sequential execution of payout-generation requests. -/
def runPayouts (reqs : List PayoutRequest) (db : Db) : Db :=
  reqs.foldl
    (fun s r => (generatePayout r.storeId r.orderIds r.platformFeePercentage s).2)
    db

/-- Order ids referenced by payout items, one list per payout batch. -/
def payoutOrderLists (db : Db) : List (List Nat) :=
  db.payouts.map (fun p => p.items.map (fun it => it.order))

/-- Integrity of the payout collection: orders have unique ids, payout
items reference orders of the owning store, and no order id occurs twice
across all payout items. -/
def PayoutIntegrity (db : Db) : Prop :=
  (db.orders.map (fun o => o.id)).Nodup ∧
  (∀ p ∈ db.payouts, ∀ it ∈ p.items,
    ∃ o ∈ db.orders, o.id = it.order ∧ o.store = p.store) ∧
  (payoutOrderLists db).flatten.Nodup

/-! ## Claims on the payment reconciler and order state machine -/

/-- C5: evaluation of the code at the failing input.  A Payment already
captured (with its Order captured and confirmed) is overwritten to
failed, and the Order payment status to failed, by a later
payment.failed webhook for the same gateway order id; the handler has no
terminal-state guard. -/
theorem claim_C5_failed_overwrites_captured :
    ((handlePaymentFailed ⟨"pay_1", "order_rzp1"⟩
      ⟨[2],
        [⟨1, 7, 2, [], PaymentStatus.captured, some 1, OrderStatus.confirmed,
          1000, none, none, none⟩],
        [⟨1, 7, 1, 1000, some "order_rzp1", some "pay_1", none,
          PaymentStatus.captured, none, none, none, none, none, none⟩],
        [], []⟩).payments.map (fun p => p.status) = [PaymentStatus.failed]) ∧
    ((handlePaymentFailed ⟨"pay_1", "order_rzp1"⟩
      ⟨[2],
        [⟨1, 7, 2, [], PaymentStatus.captured, some 1, OrderStatus.confirmed,
          1000, none, none, none⟩],
        [⟨1, 7, 1, 1000, some "order_rzp1", some "pay_1", none,
          PaymentStatus.captured, none, none, none, none, none, none⟩],
        [], []⟩).orders.map (fun o => o.paymentStatus) = [PaymentStatus.failed]) := by
  decide

/-- C6: evaluation of the code at the failing input.  updateOrderStatus
performs no transition validation: it accepts delivered to pending and
cancelled to shipped, answering 200 and storing the new status. -/
theorem claim_C6_no_transition_validation :
    ((updateOrderStatus 1 OrderStatus.pending
      ⟨[2],
        [⟨1, 7, 2, [], PaymentStatus.pending, none, OrderStatus.delivered,
          100, none, none, none⟩,
         ⟨2, 7, 2, [], PaymentStatus.pending, none, OrderStatus.cancelled,
          100, none, none, none⟩],
        [], [], []⟩).1 = 200) ∧
    ((updateOrderStatus 1 OrderStatus.pending
      ⟨[2],
        [⟨1, 7, 2, [], PaymentStatus.pending, none, OrderStatus.delivered,
          100, none, none, none⟩,
         ⟨2, 7, 2, [], PaymentStatus.pending, none, OrderStatus.cancelled,
          100, none, none, none⟩],
        [], [], []⟩).2.orders.map (fun o => o.orderStatus) =
      [OrderStatus.pending, OrderStatus.cancelled]) ∧
    ((updateOrderStatus 2 OrderStatus.shipped
      ⟨[2],
        [⟨1, 7, 2, [], PaymentStatus.pending, none, OrderStatus.delivered,
          100, none, none, none⟩,
         ⟨2, 7, 2, [], PaymentStatus.pending, none, OrderStatus.cancelled,
          100, none, none, none⟩],
        [], [], []⟩).2.orders.map (fun o => o.orderStatus) =
      [OrderStatus.delivered, OrderStatus.shipped]) := by
  decide

/-- C9 (amended): when a webhook shared secret is configured, any request
whose signature header is missing or does not match the HMAC of the raw
body is rejected with status 400 and the state is unchanged. -/
theorem claim_C9_unverified_webhook_rejected
    (hmac : String → String → String) (secret : String)
    (req : WebhookRequest) (db : Db)
    (h : ∀ sig, req.signature = some sig → hmac secret req.rawBody ≠ sig) :
    webhookHandler hmac (some secret) req db = (400, db) := by
  unfold webhookHandler
  cases hs : req.signature with
  | none => rfl
  | some sig => simp [h sig hs]

/-- C9 witness: a configured secret with a mismatched signature header is
rejected without touching an empty database. -/
theorem claim_C9_witness :
    webhookHandler (fun _ _ => "aaaa") (some "k")
      ⟨"", WebhookBody.unhandled "x", some "zz"⟩ ⟨[], [], [], [], []⟩ =
    (400, ⟨[], [], [], [], []⟩) :=
  claim_C9_unverified_webhook_rejected (fun _ _ => "aaaa") "k"
    ⟨"", WebhookBody.unhandled "x", some "zz"⟩ ⟨[], [], [], [], []⟩
    (fun sig hs => by cases hs; decide)

/-- C9 counterexample: with no webhook secret configured, a request with
no signature at all is dispatched and mutates a Payment, so state changes
without any signature verification. -/
theorem claim_C9_counterexample :
    ((⟨"", WebhookBody.payment_failed ⟨"pay_1", "o1"⟩, none⟩ :
        WebhookRequest).signature = none) ∧
    ((webhookHandler (fun _ _ => "aaaa") none
        ⟨"", WebhookBody.payment_failed ⟨"pay_1", "o1"⟩, none⟩
        ⟨[], [],
          [⟨1, 7, 1, 1000, some "o1", none, none, PaymentStatus.pending,
            none, none, none, none, none, none⟩],
          [], []⟩).2 ≠
      ⟨[], [],
        [⟨1, 7, 1, 1000, some "o1", none, none, PaymentStatus.pending,
          none, none, none, none, none, none⟩],
        [], []⟩) := by
  decide

theorem handlePaymentCaptured_payments (payment : WebhookPayment) (db : Db) :
    (handlePaymentCaptured payment db).payments =
      match db.payments.find? (fun pr => pr.razorpayPaymentId == some payment.id) with
      | none => db.payments
      | some _ =>
        updateFirst (fun pr => pr.razorpayPaymentId == some payment.id)
          (capturePaymentUpdate payment) db.payments := by
  cases h1 : db.payments.find? (fun pr => pr.razorpayPaymentId == some payment.id) with
  | none => simp [handlePaymentCaptured, h1]
  | some x =>
    cases h2 : db.orders.find? (fun o => o.id == x.order) with
    | none => simp [handlePaymentCaptured, h1, h2]
    | some od =>
      cases h3 : od.deliveryTrackingId with
      | none => simp [handlePaymentCaptured, h1, h2, h3]
      | some tid =>
        cases h4 : db.trackings.find? (fun t => t.id == tid) with
        | none => simp [handlePaymentCaptured, h1, h2, h3, h4]
        | some tr => simp [handlePaymentCaptured, h1, h2, h3, h4]

theorem handlePaymentCaptured_orders (payment : WebhookPayment) (db : Db) :
    (handlePaymentCaptured payment db).orders =
      match db.payments.find? (fun pr => pr.razorpayPaymentId == some payment.id) with
      | none => db.orders
      | some x =>
        match db.orders.find? (fun o => o.id == x.order) with
        | none => db.orders
        | some _ =>
          updateFirst (fun o => o.id == x.order) captureOrderUpdate db.orders := by
  cases h1 : db.payments.find? (fun pr => pr.razorpayPaymentId == some payment.id) with
  | none => simp [handlePaymentCaptured, h1]
  | some x =>
    cases h2 : db.orders.find? (fun o => o.id == x.order) with
    | none => simp [handlePaymentCaptured, h1, h2]
    | some od =>
      cases h3 : od.deliveryTrackingId with
      | none => simp [handlePaymentCaptured, h1, h2, h3]
      | some tid =>
        cases h4 : db.trackings.find? (fun t => t.id == tid) with
        | none => simp [handlePaymentCaptured, h1, h2, h3, h4]
        | some tr => simp [handlePaymentCaptured, h1, h2, h3, h4]

theorem captureOrderUpdate_idem (o : Order) :
    captureOrderUpdate (captureOrderUpdate o) = captureOrderUpdate o := by
  by_cases ho : o.orderStatus = OrderStatus.pending <;>
    simp [captureOrderUpdate, ho]

/-- C8: replaying a payment.captured webhook leaves the Payment and Order
collections exactly as after the first processing. -/
theorem claim_C8_captured_replay_idempotent (payment : WebhookPayment) (db : Db) :
    (handlePaymentCaptured payment (handlePaymentCaptured payment db)).payments =
      (handlePaymentCaptured payment db).payments ∧
    (handlePaymentCaptured payment (handlePaymentCaptured payment db)).orders =
      (handlePaymentCaptured payment db).orders := by
  cases h1 : db.payments.find? (fun pr => pr.razorpayPaymentId == some payment.id) with
  | none =>
    have hdb : handlePaymentCaptured payment db = db := by
      simp [handlePaymentCaptured, h1]
    simp [hdb]
  | some x =>
    have e1 : (handlePaymentCaptured payment db).payments =
        updateFirst (fun pr => pr.razorpayPaymentId == some payment.id)
          (capturePaymentUpdate payment) db.payments := by
      rw [handlePaymentCaptured_payments, h1]
    have hfind2 : (handlePaymentCaptured payment db).payments.find?
        (fun pr => pr.razorpayPaymentId == some payment.id) =
        some (capturePaymentUpdate payment x) := by
      rw [e1, find?_updateFirst (fun pr => pr.razorpayPaymentId == some payment.id)
        (capturePaymentUpdate payment) db.payments (fun y => rfl), h1]
      rfl
    have horders1 : (handlePaymentCaptured payment db).orders =
        match db.orders.find? (fun o => o.id == x.order) with
        | none => db.orders
        | some _ =>
          updateFirst (fun o => o.id == x.order) captureOrderUpdate db.orders := by
      rw [handlePaymentCaptured_orders, h1]
    have hkey : ∀ pr : Payment, (capturePaymentUpdate payment pr).order = pr.order :=
      fun pr => rfl
    constructor
    · rw [handlePaymentCaptured_payments payment (handlePaymentCaptured payment db),
        hfind2, e1]
      exact updateFirst_idem _ _ _ (fun y => rfl) (fun y => rfl)
    · rw [handlePaymentCaptured_orders payment (handlePaymentCaptured payment db)]
      simp only [hfind2, hkey]
      cases h2 : db.orders.find? (fun o => o.id == x.order) with
      | none =>
        have e2 : (handlePaymentCaptured payment db).orders = db.orders := by
          rw [horders1, h2]
        rw [e2, h2]
      | some od =>
        have e2 : (handlePaymentCaptured payment db).orders =
            updateFirst (fun o => o.id == x.order) captureOrderUpdate db.orders := by
          rw [horders1, h2]
        rw [e2, find?_updateFirst (fun o => o.id == x.order) captureOrderUpdate
          db.orders (fun y => rfl), h2]
        exact updateFirst_idem _ _ _ (fun y => rfl)
          (fun y => captureOrderUpdate_idem y)

/-- C10: an order in status partially cancelled is accepted by neither
cancelOrder nor cancelOrderItems: both answer 400 and leave the state
unchanged, for every index set, so its remaining active items cannot be
cancelled through these operations. -/
theorem claim_C10_partially_cancelled_locked (orderId userId : Nat)
    (reason : String) (refundResult : Option (String × String))
    (idxs : List Nat) (db : Db) (order : Order)
    (hfind : db.orders.find? (fun o => o.id == orderId && o.user == userId) =
      some order)
    (hstatus : order.orderStatus = OrderStatus.partially_cancelled) :
    cancelOrder orderId userId reason refundResult db = (400, db) ∧
    cancelOrderItems orderId userId idxs reason refundResult db = (400, db) := by
  have hc : OrderStatus.partially_cancelled ∉ allowedStatusForCancellation := by
    decide
  constructor
  · simp [cancelOrder, hfind, hstatus, hc]
  · cases idxs with
    | nil => simp [cancelOrderItems]
    | cons a l => simp [cancelOrderItems, hfind, hstatus, hc]

/-- C10 witness: a concrete partially cancelled order (one item already
cancelled, one still active) is rejected by both cancellation entry
points with status 400 and an unchanged database. -/
theorem claim_C10_witness :
    cancelOrder 1 7 "x" (some ("r1", "processed"))
      ⟨[2],
        [⟨1, 7, 2,
          [⟨5, 1, 500, 500, 500, ItemStatus.cancelled, some (), some "y"⟩,
           ⟨6, 1, 500, 500, 500, ItemStatus.active, none, none⟩],
          PaymentStatus.partially_refunded, some 3,
          OrderStatus.partially_cancelled, 1000, none, none, none⟩],
        [], [], []⟩ =
      (400, ⟨[2],
        [⟨1, 7, 2,
          [⟨5, 1, 500, 500, 500, ItemStatus.cancelled, some (), some "y"⟩,
           ⟨6, 1, 500, 500, 500, ItemStatus.active, none, none⟩],
          PaymentStatus.partially_refunded, some 3,
          OrderStatus.partially_cancelled, 1000, none, none, none⟩],
        [], [], []⟩) ∧
    cancelOrderItems 1 7 [1] "x" (some ("r1", "processed"))
      ⟨[2],
        [⟨1, 7, 2,
          [⟨5, 1, 500, 500, 500, ItemStatus.cancelled, some (), some "y"⟩,
           ⟨6, 1, 500, 500, 500, ItemStatus.active, none, none⟩],
          PaymentStatus.partially_refunded, some 3,
          OrderStatus.partially_cancelled, 1000, none, none, none⟩],
        [], [], []⟩ =
      (400, ⟨[2],
        [⟨1, 7, 2,
          [⟨5, 1, 500, 500, 500, ItemStatus.cancelled, some (), some "y"⟩,
           ⟨6, 1, 500, 500, 500, ItemStatus.active, none, none⟩],
          PaymentStatus.partially_refunded, some 3,
          OrderStatus.partially_cancelled, 1000, none, none, none⟩],
        [], [], []⟩) :=
  claim_C10_partially_cancelled_locked 1 7 "x" (some ("r1", "processed")) [1]
    ⟨[2],
      [⟨1, 7, 2,
        [⟨5, 1, 500, 500, 500, ItemStatus.cancelled, some (), some "y"⟩,
         ⟨6, 1, 500, 500, 500, ItemStatus.active, none, none⟩],
        PaymentStatus.partially_refunded, some 3,
        OrderStatus.partially_cancelled, 1000, none, none, none⟩],
      [], [], []⟩
    ⟨1, 7, 2,
      [⟨5, 1, 500, 500, 500, ItemStatus.cancelled, some (), some "y"⟩,
       ⟨6, 1, 500, 500, 500, ItemStatus.active, none, none⟩],
      PaymentStatus.partially_refunded, some 3,
      OrderStatus.partially_cancelled, 1000, none, none, none⟩
    (by decide) rfl

theorem mem_eligiblePayoutOrders (storeId : Nat) (orderIds : List Nat)
    (db : Db) (o : Order) (ho : o ∈ eligiblePayoutOrders storeId orderIds db) :
    o ∈ db.orders ∧ o.id ∉ ordersInPayouts storeId db ∧ o.store = storeId := by
  unfold eligiblePayoutOrders at ho
  rw [List.mem_filter] at ho
  obtain ⟨hmem, hcond⟩ := ho
  simp only [Bool.and_eq_true] at hcond
  obtain ⟨⟨⟨⟨h1, h2⟩, h3⟩, h4⟩, h5⟩ := hcond
  refine ⟨hmem, ?_, ?_⟩
  · simpa using h2
  · simpa using h3

theorem payoutIntegrity_generatePayout (storeId : Nat) (orderIds : List Nat)
    (fee : ℚ) (db : Db) (h : PayoutIntegrity db) :
    PayoutIntegrity (generatePayout storeId orderIds fee db).2 := by
  obtain ⟨hids, hstore, hnodup⟩ := h
  simp only [generatePayout]
  split
  · exact ⟨hids, hstore, hnodup⟩
  · split
    · exact ⟨hids, hstore, hnodup⟩
    · refine ⟨hids, ?_, ?_⟩
      · intro p hp it hit
        rcases List.mem_append.mp hp with hpold | hpnew
        · exact hstore p hpold it hit
        · have hpe : p = mkPayout storeId fee
              (eligiblePayoutOrders storeId orderIds db)
              (db.payouts.length + 1) := by simpa using hpnew
          subst hpe
          have hit2 : it ∈ (eligiblePayoutOrders storeId orderIds db).map
              (mkPayoutItem fee) := hit
          rcases List.mem_map.mp hit2 with ⟨o, ho, rfl⟩
          obtain ⟨homem, _, hostore⟩ :=
            mem_eligiblePayoutOrders storeId orderIds db o ho
          exact ⟨o, homem, rfl, hostore⟩
      · show ((payoutOrderLists
          { db with payouts := db.payouts ++
              [mkPayout storeId fee (eligiblePayoutOrders storeId orderIds db)
                (db.payouts.length + 1)] }).flatten).Nodup
        have hsplit : payoutOrderLists
            { db with payouts := db.payouts ++
                [mkPayout storeId fee (eligiblePayoutOrders storeId orderIds db)
                  (db.payouts.length + 1)] } =
            payoutOrderLists db ++
              [(eligiblePayoutOrders storeId orderIds db).map (fun o => o.id)] := by
          simp [payoutOrderLists, mkPayout, List.map_map]
          exact fun a _ => rfl
        rw [hsplit, List.flatten_append]
        simp only [List.flatten, List.append_nil]
        rw [List.nodup_append]
        refine ⟨hnodup, ?_, ?_⟩
        · refine List.Nodup.sublist ?_ hids
          have hsub : List.Sublist (eligiblePayoutOrders storeId orderIds db)
              db.orders := List.filter_sublist db.orders
          exact hsub.map (fun o => o.id)
        · intro x hx hxnew
          rcases List.mem_map.mp hxnew with ⟨o, ho, hoid⟩
          obtain ⟨homem, hnotin, hostore⟩ :=
            mem_eligiblePayoutOrders storeId orderIds db o ho
          rcases List.mem_flatten.mp hx with ⟨lst, hlst, hxl⟩
          rcases List.mem_map.mp hlst with ⟨p, hpmem, rfl⟩
          rcases List.mem_map.mp hxl with ⟨it, hitmem, hito⟩
          obtain ⟨o2, ho2mem, ho2id, ho2store⟩ := hstore p hpmem it hitmem
          have hoo2 : o = o2 := by
            apply List.inj_on_of_nodup_map hids homem ho2mem
            rw [hoid, ho2id, hito]
          apply hnotin
          rw [hoid, ← hito]
          unfold ordersInPayouts
          refine List.mem_flatMap.mpr ⟨p, ?_, ?_⟩
          · refine List.mem_filter.mpr ⟨hpmem, ?_⟩
            have : p.store = storeId := by
              rw [← ho2store, ← hoo2, hostore]
            simp [this]
          · exact List.mem_map.mpr ⟨it, hitmem, rfl⟩

/-- C1: starting from a state whose payout collection satisfies the
integrity invariant (in particular the empty one), any sequence of
generatePayout requests leaves the payout batches pairwise disjoint in
the order ids they reference, and each batch free of duplicates: no
order id ever appears in the item list of more than one Payout. -/
theorem claim_C1_no_double_payout (reqs : List PayoutRequest) (db : Db)
    (h : PayoutIntegrity db) :
    (payoutOrderLists (runPayouts reqs db)).Pairwise List.Disjoint ∧
    ∀ lst ∈ payoutOrderLists (runPayouts reqs db), lst.Nodup := by
  have hrun : PayoutIntegrity (runPayouts reqs db) := by
    induction reqs generalizing db with
    | nil => exact h
    | cons r rs ih =>
      exact ih
        ((generatePayout r.storeId r.orderIds r.platformFeePercentage db).2)
        (payoutIntegrity_generatePayout r.storeId r.orderIds
          r.platformFeePercentage db h)
  have h3 := hrun.2.2
  rw [List.nodup_flatten] at h3
  exact ⟨h3.2, h3.1⟩

/-- C1 witness: scenario E.  Two delivered, captured orders of store 1;
a first generation over both orders claims them, and a second generation
naming order 1 again creates no batch, so the final payout lists are
exactly one batch over orders 1 and 2, pairwise disjoint. -/
theorem claim_C1_witness :
    PayoutIntegrity ⟨[1],
      [⟨1, 7, 1, [], PaymentStatus.captured, none, OrderStatus.delivered,
        1000, none, none, none⟩,
       ⟨2, 7, 1, [], PaymentStatus.captured, none, OrderStatus.delivered,
        2000, none, none, none⟩],
      [], [], []⟩ ∧
    (payoutOrderLists (runPayouts [⟨1, [1, 2], 10⟩, ⟨1, [1], 10⟩]
      ⟨[1],
        [⟨1, 7, 1, [], PaymentStatus.captured, none, OrderStatus.delivered,
          1000, none, none, none⟩,
         ⟨2, 7, 1, [], PaymentStatus.captured, none, OrderStatus.delivered,
          2000, none, none, none⟩],
        [], [], []⟩)).Pairwise List.Disjoint ∧
    payoutOrderLists (runPayouts [⟨1, [1, 2], 10⟩, ⟨1, [1], 10⟩]
      ⟨[1],
        [⟨1, 7, 1, [], PaymentStatus.captured, none, OrderStatus.delivered,
          1000, none, none, none⟩,
         ⟨2, 7, 1, [], PaymentStatus.captured, none, OrderStatus.delivered,
          2000, none, none, none⟩],
        [], [], []⟩) = [[1, 2]] :=
  ⟨⟨by decide, fun p hp => absurd hp (by simp), by simp [payoutOrderLists]⟩,
    (claim_C1_no_double_payout [⟨1, [1, 2], 10⟩, ⟨1, [1], 10⟩]
      ⟨[1],
        [⟨1, 7, 1, [], PaymentStatus.captured, none, OrderStatus.delivered,
          1000, none, none, none⟩,
         ⟨2, 7, 1, [], PaymentStatus.captured, none, OrderStatus.delivered,
          2000, none, none, none⟩],
        [], [], []⟩
      ⟨by decide, fun p hp => absurd hp (by simp), by simp [payoutOrderLists]⟩).1,
    by decide⟩

theorem cancelItemsUpdate_enumFrom_get? (idxs : List Nat) (reason : String) :
    ∀ (items : List OrderItem) (n j : Nat),
    ((List.enumFrom n items).map (fun q =>
      if idxs.contains q.1 && q.2.status == ItemStatus.active then
        cancelMark reason q.2
      else q.2)).get? j =
    (items.get? j).map (fun it =>
      if idxs.contains (n + j) && it.status == ItemStatus.active then
        cancelMark reason it
      else it) := by
  intro items
  induction items with
  | nil => intro n j; simp
  | cons it rest ih =>
    intro n j
    cases j with
    | zero => simp [List.enumFrom_cons]
    | succ j =>
      simp only [List.enumFrom_cons, List.map_cons, List.get?_cons_succ]
      rw [ih (n + 1) j]
      have hnj : n + 1 + j = n + (j + 1) := by omega
      rw [hnj]

theorem cancelItemsUpdate_get? (idxs : List Nat) (reason : String)
    (items : List OrderItem) (j : Nat) :
    (cancelItemsUpdate idxs reason items).get? j =
    (items.get? j).map (fun it =>
      if idxs.contains j && it.status == ItemStatus.active then
        cancelMark reason it
      else it) := by
  unfold cancelItemsUpdate
  have := cancelItemsUpdate_enumFrom_get? idxs reason items 0 j
  simpa using this

theorem allItemsCancelledAfter_enumFrom (idxs : List Nat) (reason : String) :
    ∀ (items : List OrderItem) (n : Nat),
    ((List.enumFrom n items).map (fun q =>
      if idxs.contains q.1 && q.2.status == ItemStatus.active then
        cancelMark reason q.2
      else q.2)).all (fun it => !(it.status == ItemStatus.active)) =
    (List.enumFrom n items).all (fun q =>
      !(q.2.status == ItemStatus.active) || idxs.contains q.1) := by
  intro items
  induction items with
  | nil => intro n; simp
  | cons it rest ih =>
    intro n
    simp only [List.enumFrom_cons, List.map_cons, List.all_cons]
    rw [ih (n + 1)]
    cases hc : idxs.contains n <;>
      cases ha : it.status == ItemStatus.active <;>
        simp [cancelMark, hc, ha]

theorem allItemsCancelledAfter_eq (idxs : List Nat) (reason : String)
    (items : List OrderItem) :
    allItemsCancelledAfter idxs items =
    (cancelItemsUpdate idxs reason items).all
      (fun it => !(it.status == ItemStatus.active)) := by
  unfold allItemsCancelledAfter cancelItemsUpdate
  rw [List.enum_eq_enumFrom]
  exact (allItemsCancelledAfter_enumFrom idxs reason items 0).symm

theorem foldl_if_add {α : Type} (p : α → Bool) (g : α → ℚ) :
    ∀ (l : List α) (init : ℚ),
    l.foldl (fun acc q => if p q then acc + g q else acc) init =
      init + ((l.filter p).map g).sum := by
  intro l
  induction l with
  | nil => intro init; simp
  | cons x xs ih =>
    intro init
    cases hx : p x with
    | true =>
      simp only [List.foldl_cons, hx, List.filter_cons, if_pos trivial]
      rw [ih]
      simp [hx]
      ring
    | false =>
      simp only [List.foldl_cons, hx, List.filter_cons]
      rw [ih]
      simp [hx]

theorem cancelRefundAmount_eq (idxs : List Nat) (items : List OrderItem) :
    cancelRefundAmount idxs items =
    ((items.enum.filter (fun q =>
        idxs.contains q.1 && q.2.status == ItemStatus.active)).map
      (fun q => q.2.totalPrice)).sum := by
  unfold cancelRefundAmount
  rw [foldl_if_add]
  simp

theorem pushTrackingUpdate_orders (tid : Option Nat) (upd : DeliveryUpdate)
    (nc : Option String) (db : Db) :
    (pushTrackingUpdate tid upd nc db).orders = db.orders := by
  unfold pushTrackingUpdate
  cases tid with
  | none => rfl
  | some t =>
    cases htr : db.trackings.find? (fun tr => tr.id == t) with
    | none => simp [htr]
    | some x => simp [htr]

theorem pushTrackingUpdate_payments (tid : Option Nat) (upd : DeliveryUpdate)
    (nc : Option String) (db : Db) :
    (pushTrackingUpdate tid upd nc db).payments = db.payments := by
  unfold pushTrackingUpdate
  cases tid with
  | none => rfl
  | some t =>
    cases htr : db.trackings.find? (fun tr => tr.id == t) with
    | none => simp [htr]
    | some x => simp [htr]

/-- C7 (amended): partial cancellation characterisation. -/
theorem claim_C7_partial_cancellation (orderId userId : Nat)
    (idxs : List Nat) (reason : String) (r : String × String) (db : Db)
    (order : Order) (pid : Nat) (payment : Payment)
    (hne : idxs ≠ [])
    (hfind : db.orders.find? (fun o => o.id == orderId && o.user == userId) =
      some order)
    (hidnodup : (db.orders.map (fun o => o.id)).Nodup)
    (hstatus : order.orderStatus ∈ allowedStatusForCancellation)
    (hcap : order.paymentStatus = PaymentStatus.captured)
    (hpid : order.paymentId = some pid)
    (hpay : db.payments.find? (fun pr => pr.id == pid) = some payment)
    (hrzp : payment.razorpayPaymentId.isSome = true)
    (hpos : 0 < cancelRefundAmount idxs order.items) :
    ∃ o',
      ((cancelOrderItems orderId userId idxs reason (some r) db).2).orders.find?
        (fun o => o.id == orderId) = some o' ∧
      (∀ j, o'.items.get? j = (order.items.get? j).map (fun it =>
        if idxs.contains j && it.status == ItemStatus.active then
          cancelMark reason it
        else it)) ∧
      o'.orderStatus =
        (if o'.items.all (fun it => !(it.status == ItemStatus.active)) then
          OrderStatus.cancelled
        else OrderStatus.partially_cancelled) ∧
      o'.paymentStatus =
        (if o'.items.all (fun it => !(it.status == ItemStatus.active)) then
          PaymentStatus.refunded
        else PaymentStatus.partially_refunded) ∧
      ∃ p',
        ((cancelOrderItems orderId userId idxs reason (some r) db).2).payments.find?
          (fun pr => pr.id == pid) = some p' ∧
        p'.refundAmount = some (((order.items.enum.filter (fun q =>
            idxs.contains q.1 && q.2.status == ItemStatus.active)).map
          (fun q => q.2.totalPrice)).sum) ∧
        p'.status =
          (if o'.items.all (fun it => !(it.status == ItemStatus.active)) then
            PaymentStatus.refunded
          else PaymentStatus.partially_refunded) := by
  have hie : idxs.isEmpty = false := by
    cases idxs with
    | nil => exact absurd rfl hne
    | cons a l => rfl
  have hfindid : db.orders.find? (fun o => o.id == orderId) = some order :=
    find?_of_stronger_pred (fun o => o.id) (fun o => o.user == userId)
      db.orders orderId order hidnodup hfind
  have hct : allowedStatusForCancellation.contains order.orderStatus = true := by
    simpa using hstatus
  have hid1 : ∀ y : Order,
      ((cancelItemsOrderUpdate (allItemsCancelledAfter idxs order.items)
        (cancelItemsUpdate idxs reason order.items) reason y).id == orderId) =
      (y.id == orderId) := by
    intro y
    cases hc : allItemsCancelledAfter idxs order.items <;>
      simp [cancelItemsOrderUpdate, hc]
  have hfound1 : (updateFirst (fun o => o.id == orderId)
      (cancelItemsOrderUpdate (allItemsCancelledAfter idxs order.items)
        (cancelItemsUpdate idxs reason order.items) reason)
      db.orders).find? (fun o => o.id == orderId) =
      some (cancelItemsOrderUpdate (allItemsCancelledAfter idxs order.items)
        (cancelItemsUpdate idxs reason order.items) reason order) := by
    rw [find?_updateFirst (fun o => o.id == orderId)
      (cancelItemsOrderUpdate (allItemsCancelledAfter idxs order.items)
        (cancelItemsUpdate idxs reason order.items) reason) db.orders hid1,
      hfindid]
    rfl
  have hfound2 : (updateFirst (fun o => o.id == orderId)
      (cancelItemsPaymentStatusUpdate (allItemsCancelledAfter idxs order.items))
      (updateFirst (fun o => o.id == orderId)
        (cancelItemsOrderUpdate (allItemsCancelledAfter idxs order.items)
          (cancelItemsUpdate idxs reason order.items) reason)
        db.orders)).find? (fun o => o.id == orderId) =
      some (cancelItemsPaymentStatusUpdate
        (allItemsCancelledAfter idxs order.items)
        (cancelItemsOrderUpdate (allItemsCancelledAfter idxs order.items)
          (cancelItemsUpdate idxs reason order.items) reason order)) := by
    rw [find?_updateFirst (fun o => o.id == orderId)
      (cancelItemsPaymentStatusUpdate (allItemsCancelledAfter idxs order.items))
      _ (fun y => rfl), hfound1]
    rfl
  have hfound3 : (updateFirst (fun pr => pr.id == pid)
      (cancelItemsPaymentUpdate (allItemsCancelledAfter idxs order.items)
        (cancelRefundAmount idxs order.items) reason r)
      db.payments).find? (fun pr => pr.id == pid) =
      some (cancelItemsPaymentUpdate (allItemsCancelledAfter idxs order.items)
        (cancelRefundAmount idxs order.items) reason r payment) := by
    rw [find?_updateFirst (fun pr => pr.id == pid)
      (cancelItemsPaymentUpdate (allItemsCancelledAfter idxs order.items)
        (cancelRefundAmount idxs order.items) reason r) db.payments
      (fun y => rfl), hpay]
    rfl
  have hitems : (cancelItemsPaymentStatusUpdate
      (allItemsCancelledAfter idxs order.items)
      (cancelItemsOrderUpdate (allItemsCancelledAfter idxs order.items)
        (cancelItemsUpdate idxs reason order.items) reason order)).items =
      cancelItemsUpdate idxs reason order.items := by
    cases hc : allItemsCancelledAfter idxs order.items <;>
      simp [cancelItemsPaymentStatusUpdate, cancelItemsOrderUpdate, hc]
  unfold cancelOrderItems
  simp only [hie, Bool.false_eq_true, if_false, hfind, hct, Bool.not_true,
    hpid, pushTrackingUpdate_orders, pushTrackingUpdate_payments]
  simp only [hcap, hpos, and_true, true_and, if_true, eq_self_iff_true,
    if_pos trivial]
  simp only [hpay, hrzp, if_true]
  refine ⟨_, hfound2, ?_, ?_, ?_, ?_⟩
  · intro j
    rw [hitems, cancelItemsUpdate_get?]
  · rw [hitems, ← allItemsCancelledAfter_eq idxs reason order.items]
    cases hc : allItemsCancelledAfter idxs order.items <;>
      simp [cancelItemsPaymentStatusUpdate, cancelItemsOrderUpdate, hc]
  · rw [hitems, ← allItemsCancelledAfter_eq idxs reason order.items]
    cases hc : allItemsCancelledAfter idxs order.items <;>
      simp [cancelItemsPaymentStatusUpdate, cancelItemsOrderUpdate, hc]
  · refine ⟨_, hfound3, ?_, ?_⟩
    · rw [← cancelRefundAmount_eq]
      rfl
    · rw [hitems, ← allItemsCancelledAfter_eq idxs reason order.items]
      cases hc : allItemsCancelledAfter idxs order.items <;>
        simp [cancelItemsPaymentUpdate, hc]


/-- C7 witness: scenario D.  Cancelling item 0 of two active 500 items on
a confirmed, captured order refunds 500 and yields partially cancelled
and partially refunded states. -/
theorem claim_C7_witness :
    ∃ o',
      ((cancelOrderItems 1 7 [0] "changed mind" (some ("r1", "processed"))
        ⟨[2],
          [⟨1, 7, 2,
            [⟨11, 1, 500, 500, 500, ItemStatus.active, none, none⟩,
             ⟨12, 1, 500, 500, 500, ItemStatus.active, none, none⟩],
            PaymentStatus.captured, some 3, OrderStatus.confirmed, 1000,
            none, none, none⟩],
          [⟨3, 7, 1, 1000, some "rzp_o1", some "pay_1", none,
            PaymentStatus.captured, none, none, none, none, none, none⟩],
          [], []⟩).2).orders.find? (fun o => o.id == 1) = some o' ∧
      (∀ j, o'.items.get? j =
        (([⟨11, 1, 500, 500, 500, ItemStatus.active, none, none⟩,
           ⟨12, 1, 500, 500, 500, ItemStatus.active, none, none⟩] :
          List OrderItem).get? j).map (fun it =>
          if [0].contains j && it.status == ItemStatus.active then
            cancelMark "changed mind" it
          else it)) ∧
      o'.orderStatus =
        (if o'.items.all (fun it => !(it.status == ItemStatus.active)) then
          OrderStatus.cancelled
        else OrderStatus.partially_cancelled) ∧
      o'.paymentStatus =
        (if o'.items.all (fun it => !(it.status == ItemStatus.active)) then
          PaymentStatus.refunded
        else PaymentStatus.partially_refunded) ∧
      ∃ p',
        ((cancelOrderItems 1 7 [0] "changed mind" (some ("r1", "processed"))
          ⟨[2],
            [⟨1, 7, 2,
              [⟨11, 1, 500, 500, 500, ItemStatus.active, none, none⟩,
               ⟨12, 1, 500, 500, 500, ItemStatus.active, none, none⟩],
              PaymentStatus.captured, some 3, OrderStatus.confirmed, 1000,
              none, none, none⟩],
            [⟨3, 7, 1, 1000, some "rzp_o1", some "pay_1", none,
              PaymentStatus.captured, none, none, none, none, none, none⟩],
            [], []⟩).2).payments.find? (fun pr => pr.id == 3) = some p' ∧
        p'.refundAmount = some (((([⟨11, 1, 500, 500, 500, ItemStatus.active,
            none, none⟩,
           ⟨12, 1, 500, 500, 500, ItemStatus.active, none, none⟩] :
          List OrderItem).enum.filter (fun q =>
            [0].contains q.1 && q.2.status == ItemStatus.active)).map
          (fun q => q.2.totalPrice)).sum) ∧
        p'.status =
          (if o'.items.all (fun it => !(it.status == ItemStatus.active)) then
            PaymentStatus.refunded
          else PaymentStatus.partially_refunded) :=
  claim_C7_partial_cancellation 1 7 [0] "changed mind" ("r1", "processed")
    ⟨[2],
      [⟨1, 7, 2,
        [⟨11, 1, 500, 500, 500, ItemStatus.active, none, none⟩,
         ⟨12, 1, 500, 500, 500, ItemStatus.active, none, none⟩],
        PaymentStatus.captured, some 3, OrderStatus.confirmed, 1000,
        none, none, none⟩],
      [⟨3, 7, 1, 1000, some "rzp_o1", some "pay_1", none,
        PaymentStatus.captured, none, none, none, none, none, none⟩],
      [], []⟩
    ⟨1, 7, 2,
      [⟨11, 1, 500, 500, 500, ItemStatus.active, none, none⟩,
       ⟨12, 1, 500, 500, 500, ItemStatus.active, none, none⟩],
      PaymentStatus.captured, some 3, OrderStatus.confirmed, 1000,
      none, none, none⟩
    3
    ⟨3, 7, 1, 1000, some "rzp_o1", some "pay_1", none,
      PaymentStatus.captured, none, none, none, none, none, none⟩
    (by decide) (by decide) (by decide) (by decide) rfl rfl (by decide)
    rfl (by norm_num [cancelRefundAmount, List.enum_cons, List.enumFrom])

/-- C7 counterexample: supplying only an out-of-range index on a
captured-payment order with two active items cancels nothing, yet the
order still becomes partially cancelled while its payment status stays
captured, not partially refunded as the claim requires. -/
theorem claim_C7_counterexample :
    ((cancelOrderItems 1 7 [5] "changed mind" (some ("r1", "processed"))
      ⟨[2],
        [⟨1, 7, 2,
          [⟨11, 1, 500, 500, 500, ItemStatus.active, none, none⟩,
           ⟨12, 1, 500, 500, 500, ItemStatus.active, none, none⟩],
          PaymentStatus.captured, some 3, OrderStatus.confirmed, 1000,
          none, none, none⟩],
        [⟨3, 7, 1, 1000, some "rzp_o1", some "pay_1", none,
          PaymentStatus.captured, none, none, none, none, none, none⟩],
        [], []⟩).2.orders.map (fun o => (o.orderStatus, o.paymentStatus))) =
      [(OrderStatus.partially_cancelled, PaymentStatus.captured)] ∧
    ((cancelOrderItems 1 7 [5] "changed mind" (some ("r1", "processed"))
      ⟨[2],
        [⟨1, 7, 2,
          [⟨11, 1, 500, 500, 500, ItemStatus.active, none, none⟩,
           ⟨12, 1, 500, 500, 500, ItemStatus.active, none, none⟩],
          PaymentStatus.captured, some 3, OrderStatus.confirmed, 1000,
          none, none, none⟩],
        [⟨3, 7, 1, 1000, some "rzp_o1", some "pay_1", none,
          PaymentStatus.captured, none, none, none, none, none, none⟩],
        [], []⟩).2.payments.map (fun p => p.status)) =
      [PaymentStatus.captured] ∧
    PaymentStatus.captured ≠ PaymentStatus.partially_refunded := by
  decide

end Dukaan
